import Mathlib

/-!
Verification of the PII-masking / geo-resolver / retrieval core of the
hyper-personalized retail support agent.

The Python source is embedded shallowly:

* `src/masking.py` — the regex-driven masking engine is embedded over
  `List Char`.  The five phone patterns and the e-mail pattern are compiled by
  hand into a tiny backtracking matcher (`matchItems`) whose semantics mirror
  the CPython `re` module on these patterns: leftmost match, greedy bounded
  quantifiers over character classes with backtracking, and `\b` word
  boundaries (ASCII interpretation of `\d`, `\s`, `\w`).  `re.findall` becomes
  `scanAll` (non-overlapping, left to right) and `str.replace(old, new, cnt)`
  becomes `replaceFirstL` / `replaceAllL`.
* `src/database.py` — `calculate_distance` and `get_nearest_store_for_customer`
  are embedded with Python floats modelled as real numbers, `math.atan2` as
  `pyAtan2` and the Python `round(x, 1)` as round-half-even on `10 * x`.
* `src/rag.py` — `RAGSystem.retrieve`; the chromadb client is an external
  collaborator and is modelled by an association list of named collections
  (`get_collection` raising on a missing name becomes a `none` lookup).
* `src/streamlit_app.py` — `process_message`, with the effectful collaborators
  (database lookups, retrieval, LLM call) modelled as `Except`-valued fields
  of an environment record; the `try/except` block becomes a `match` on the
  `Except` value.
-/

namespace Retail

/-! ### Character classes (ASCII reading of the Python `\d`, `\s`, `\w`) -/

def isDigitCh (c : Char) : Bool := '0' ≤ c && c ≤ '9'

def isAsciiLetter (c : Char) : Bool := ('a' ≤ c && c ≤ 'z') || ('A' ≤ c && c ≤ 'Z')

/-- Python `\s` (ASCII): space, tab, newline, carriage return, vertical tab,
form feed. -/
def isSpacePy (c : Char) : Bool :=
  c = ' ' || c = '\t' || c = '\n' || c = '\r' || c = '\x0b' || c = '\x0c'

/-- Python `\w` (ASCII): letters, digits and underscore. -/
def isWordCh (c : Char) : Bool := isAsciiLetter c || isDigitCh c || c = '_'

/-- The class `[-.\s]` used as separator in the phone patterns. -/
def isSepCh (c : Char) : Bool := c = '-' || c = '.' || isSpacePy c

/-- Local part class of the e-mail pattern: `[A-Za-z0-9._%+-]`. -/
def isEmailLocalCh (c : Char) : Bool :=
  isAsciiLetter c || isDigitCh c || c = '.' || c = '_' || c = '%' || c = '+' || c = '-'

/-- Domain class of the e-mail pattern: `[A-Za-z0-9.-]`. -/
def isEmailDomainCh (c : Char) : Bool :=
  isAsciiLetter c || isDigitCh c || c = '.' || c = '-'

/-- Top-level-domain class of the e-mail pattern, literally `[A-Z|a-z]`
(the class in the source holds a literal `|`). -/
def isTldCh (c : Char) : Bool := isAsciiLetter c || c = '|'

/-! ### A miniature backtracking regex engine

Each source pattern is a sequence of items.  Every quantifier in the six
patterns ranges over a single character class, so an item is either a greedy
bounded repetition of a class (`hi = none` meaning unbounded, as in `\s*` and
`+`) or a word-boundary assertion `\b`. -/

inductive RItem where
  | cls (p : Char → Bool) (lo : Nat) (hi : Option Nat)
  | wordB

/-- Length of the maximal run of characters satisfying `p` at the head. -/
def takeCount (p : Char → Bool) : List Char → Nat
  | [] => 0
  | c :: cs => if p c then takeCount p cs + 1 else 0

/-- Python `\b`: word-ness differs on the two sides (outside the string
counts as non-word). -/
def boundaryOk (prev next : Option Char) : Bool :=
  (prev.elim false isWordCh) != (next.elim false isWordCh)

/-- The character preceding position `k` of `s` (`prev` when `k = 0`),
used for `\b` checks after consuming `k` characters. -/
def prevCharAt (prev : Option Char) (s : List Char) (k : Nat) : Option Char :=
  match k with
  | 0 => prev
  | k' + 1 => s[k']?

/-- Greedy backtracking driver for a class repetition: try the continuation
`f` after consuming `k` characters, then `k - 1`, …, stopping below `lo`. -/
def tryCounts (f : Nat → Option Nat) (lo : Nat) : Nat → Option Nat
  | 0 => if 0 < lo then none else f 0
  | k + 1 =>
      if k + 1 < lo then none
      else
        match f (k + 1) with
        | some r => some r
        | none => tryCounts f lo k

/-- Match a sequence of items at the start of `s`, returning the number of
characters consumed by the leftmost-greedy (Python) match attempt, or `none`.
`prev` is the character just before `s` in the subject string. -/
def matchItems : List RItem → Option Char → List Char → Option Nat
  | [], _, _ => some 0
  | .wordB :: rest, prev, s =>
      if boundaryOk prev s.head? then matchItems rest prev s else none
  | .cls p lo hi :: rest, prev, s =>
      let avail := takeCount p s
      let top := match hi with | none => avail | some h => min avail h
      tryCounts (fun k => (matchItems rest (prevCharAt prev s k) (s.drop k)).map (k + ·))
        lo top

/-- One step of the scan of `re.findall`, with enough fuel to cover the subject:
at each position try a match; on success record it and continue after it,
otherwise advance one character.  (Our patterns never match the empty
string, so an empty match also advances.) -/
def scanGo (items : List RItem) : Nat → Option Char → List Char → List (List Char)
  | 0, _, _ => []
  | _ + 1, _, [] => []
  | fuel + 1, prev, c :: cs =>
      match matchItems items prev (c :: cs) with
      | some (n + 1) =>
          ((c :: cs).take (n + 1)) :: scanGo items fuel ((c :: cs)[n]?) ((c :: cs).drop (n + 1))
      | _ => scanGo items fuel (some c) cs

/-- `re.findall` for a pattern without groups: non-overlapping matches, left
to right. -/
def scanAll (items : List RItem) (prev : Option Char) (s : List Char) : List (List Char) :=
  scanGo items s.length prev s

/-! ### The six patterns of `src/masking.py` -/

/-- `\+\d{1,3}[-.\s]?\d{3}[-.\s]?\d{4}` -/
def phonePat1 : List RItem :=
  [.cls (· = '+') 1 (some 1), .cls isDigitCh 1 (some 3), .cls isSepCh 0 (some 1),
   .cls isDigitCh 3 (some 3), .cls isSepCh 0 (some 1), .cls isDigitCh 4 (some 4)]

/-- `\+\d{1,3}[-.\s]?\(?\d{3}\)?[-.\s]?\d{3}[-.\s]?\d{4}` -/
def phonePat2 : List RItem :=
  [.cls (· = '+') 1 (some 1), .cls isDigitCh 1 (some 3), .cls isSepCh 0 (some 1),
   .cls (· = '(') 0 (some 1), .cls isDigitCh 3 (some 3), .cls (· = ')') 0 (some 1),
   .cls isSepCh 0 (some 1), .cls isDigitCh 3 (some 3), .cls isSepCh 0 (some 1),
   .cls isDigitCh 4 (some 4)]

/-- `\(\d{3}\)\s*\d{3}[-.\s]?\d{4}` -/
def phonePat3 : List RItem :=
  [.cls (· = '(') 1 (some 1), .cls isDigitCh 3 (some 3), .cls (· = ')') 1 (some 1),
   .cls isSpacePy 0 none, .cls isDigitCh 3 (some 3), .cls isSepCh 0 (some 1),
   .cls isDigitCh 4 (some 4)]

/-- `\d{3}[-.\s]\d{3}[-.\s]\d{4}` -/
def phonePat4 : List RItem :=
  [.cls isDigitCh 3 (some 3), .cls isSepCh 1 (some 1), .cls isDigitCh 3 (some 3),
   .cls isSepCh 1 (some 1), .cls isDigitCh 4 (some 4)]

/-- `\b\d{10}\b` -/
def phonePat5 : List RItem :=
  [.wordB, .cls isDigitCh 10 (some 10), .wordB]

/-- The ordered phone pattern list of `mask_text`. -/
def phonePatterns : List (List RItem) :=
  [phonePat1, phonePat2, phonePat3, phonePat4, phonePat5]

/-- `\b[A-Za-z0-9._%+-]+@[A-Za-z0-9.-]+\.[A-Z|a-z]{2,}\b` -/
def emailPattern : List RItem :=
  [.wordB, .cls isEmailLocalCh 1 none, .cls (· = '@') 1 (some 1),
   .cls isEmailDomainCh 1 none, .cls (· = '.') 1 (some 1), .cls isTldCh 2 none, .wordB]

/-- `re.findall(pattern, text)` on a whole subject string. -/
def findAll (items : List RItem) (text : List Char) : List (List Char) :=
  scanAll items none text

/-! ### Python string primitives used by `src/masking.py` -/

/-- Does `pre` occur at the head of `s`? -/
def leadsWith : List Char → List Char → Bool
  | [], _ => true
  | _ :: _, [] => false
  | a :: as, b :: bs => a = b && leadsWith as bs

/-- `s.replace(old, new, 1)`: replace the first (leftmost) occurrence of
`old` in `s` by `new` (an empty `old` matches at position 0, as in Python). -/
def replaceFirstL : List Char → List Char → List Char → List Char
  | s, [], new => new ++ s
  | [], _ :: _, _ => []
  | c :: cs, o :: os, new =>
      if leadsWith (o :: os) (c :: cs) then new ++ (c :: cs).drop (o :: os).length
      else c :: replaceFirstL cs (o :: os) new

/-- Fuelled worker for `replaceAllL`; each step consumes at least one
character of the subject, so fuel equal to the subject length suffices. -/
def replaceAllGo (old new : List Char) : Nat → List Char → List Char
  | 0, s => s
  | _ + 1, [] => []
  | fuel + 1, c :: cs =>
      if !old.isEmpty && leadsWith old (c :: cs) then
        new ++ replaceAllGo old new fuel ((c :: cs).drop old.length)
      else c :: replaceAllGo old new fuel cs

/-- `s.replace(old, new)`: replace every occurrence of `old` in `s` by `new`,
left to right, non-overlapping.  (Every call site passes a placeholder token
as `old`, so the Python edge case of an empty pattern is not modelled.) -/
def replaceAllL (s old new : List Char) : List Char :=
  replaceAllGo old new s.length s

/-- Python dictionary write `d[k] = v` on an insertion-ordered dictionary
modelled as an association list: overwrite in place if the key exists,
otherwise append. -/
def pyDictSet {α β : Type} [DecidableEq α] (d : List (α × β)) (k : α) (v : β) :
    List (α × β) :=
  if d.any (fun e => e.1 = k) then d.map (fun e => if e.1 = k then (k, v) else e)
  else d ++ [(k, v)]

/-- `d.update(e)` on insertion-ordered dictionaries. -/
def pyDictUpdate {α β : Type} [DecidableEq α] (d e : List (α × β)) : List (α × β) :=
  e.foldl (fun d kv => pyDictSet d kv.1 kv.2) d

/-! ### `mask_text` / `unmask_text` (`src/masking.py`, lines 11–78) -/

/-- Intermediate state of the `mask_text` phone loop: the working text, the
placeholder → literal dictionary, and `phone_counter`. -/
structure MaskState where
  text : List Char
  table : List (List Char × List Char)
  counter : Nat

/-- The phone placeholder token `[PHONE_n]` (an f-string in the source). -/
def phonePlaceholder (n : Nat) : List Char :=
  "[PHONE_".data ++ Nat.toDigits 10 n ++ "]".data

/-- The e-mail placeholder token `[EMAIL_n]` (an f-string in the source). -/
def emailPlaceholder (n : Nat) : List Char :=
  "[EMAIL_".data ++ Nat.toDigits 10 n ++ "]".data

/-- Body of the inner loop `for phone in phones: ...` of `mask_text`:
skip whitespace-only matches and literals already present among the
values of the dictionary, otherwise allocate the next `[PHONE_n]` placeholder and
replace the first occurrence of the literal. -/
def phoneStep (st : MaskState) (phone : List Char) : MaskState :=
  if phone.any (fun c => !isSpacePy c) && !st.table.any (fun e => e.2 = phone) then
    let placeholder := phonePlaceholder st.counter
    { text := replaceFirstL st.text phone placeholder
      table := pyDictSet st.table placeholder phone
      counter := st.counter + 1 }
  else st

/-- One iteration of `for pattern in phone_patterns: ...`: `re.findall` over
the current working text, then the inner replacement loop. -/
def phonePass (st : MaskState) (pat : List RItem) : MaskState :=
  (findAll pat st.text).foldl phoneStep st

/-- State of the e-mail loop: working text, dictionary, and the 1-based
`enumerate` index. -/
def emailStep (acc : List Char × List (List Char × List Char) × Nat) (email : List Char) :
    List Char × List (List Char × List Char) × Nat :=
  let (text, table, i) := acc
  let placeholder := emailPlaceholder i
  (replaceFirstL text email placeholder, pyDictSet table placeholder email, i + 1)

/-- `mask_text(text)` over `List Char`: the five phone patterns in order over
the working text, then the e-mail pattern, returning the masked text and the
substitution table (insertion-ordered). -/
def maskTextL (text : List Char) : List Char × List (List Char × List Char) :=
  let st := phonePatterns.foldl phonePass ⟨text, [], 1⟩
  let emails := findAll emailPattern st.text
  let final := emails.foldl emailStep (st.text, st.table, 1)
  (final.1, final.2.1)

/-- `unmask_text(text, mapping)`: replace all occurrences of every
placeholder key by its stored literal, in dictionary (insertion) order. -/
def unmaskTextL (text : List Char) (table : List (List Char × List Char)) : List Char :=
  table.foldl (fun s e => replaceAllL s e.1 e.2) text

/-- `mask_text` at `String` level. -/
def maskText (s : String) : String × List (String × String) :=
  let (t, m) := maskTextL s.data
  (String.mk t, m.map (fun e => (String.mk e.1, String.mk e.2)))

/-- `unmask_text` at `String` level. -/
def unmaskText (s : String) (table : List (String × String)) : String :=
  String.mk (unmaskTextL s.data (table.map (fun e => (e.1.data, e.2.data))))

/-! ### `mask_customer_context` (`src/masking.py`, lines 81–108)

`get_customer_context` (`src/database.py`, lines 183–240) returns either `{}`
(unknown customer) or a dictionary with the fields below; the empty dictionary
is modelled as `none`. -/

/-- One row of the recent-orders list inside a customer context
(the fields `build_prompt` reads). -/
structure OrderRow where
  itemName : String
  size : String
  status : String
  deriving DecidableEq

/-- One row of the active-coupons list inside a customer context. -/
structure CouponRow where
  description : String
  validUntil : String
  deriving DecidableEq

/-- The customer-context dictionary built by `get_customer_context`. -/
structure CustomerCtx where
  id : ℤ
  name : String
  phone : String
  email : String
  address : String
  latitude : Option ℚ
  longitude : Option ℚ
  preferredDrink : String
  loyaltyLevel : String
  recentOrders : List OrderRow
  activeCoupons : List CouponRow
  deriving DecidableEq

/-- `mask_customer_context(context)`: run `mask_text` over the `phone` and
`email` fields and merge the two tables into `all_mappings` with
`dict.update`; all other fields pass through.  The empty-dictionary case
(`none`) has no `phone`/`email` keys, so nothing is masked. -/
def maskCustomerContext (context : Option CustomerCtx) :
    Option CustomerCtx × List (String × String) :=
  match context with
  | none => (none, [])
  | some ctx =>
      let (maskedPhone, phoneMapping) := maskText ctx.phone
      let (maskedEmail, emailMapping) := maskText ctx.email
      (some { ctx with phone := maskedPhone, email := maskedEmail },
       pyDictUpdate (pyDictUpdate [] phoneMapping) emailMapping)

/-! ### Geo resolver (`src/database.py`, lines 267–354)

Python floats are modelled as real numbers; `math.radians`, `math.sin`,
`math.cos`, `math.sqrt` and `math.atan2` as the corresponding real functions,
and `round(x, 1)` as round-half-even of `10 * x` divided by `10`. -/

/-- `math.radians(x) = x * pi / 180`. -/
noncomputable def radians (x : ℝ) : ℝ := x * Real.pi / 180

/-- `math.atan2(y, x)`. -/
noncomputable def pyAtan2 (y x : ℝ) : ℝ :=
  if 0 < x then Real.arctan (y / x)
  else if x < 0 then
    (if 0 ≤ y then Real.arctan (y / x) + Real.pi else Real.arctan (y / x) - Real.pi)
  else (if 0 < y then Real.pi / 2 else if y < 0 then -(Real.pi / 2) else 0)

open scoped Classical in
/-- Round to the nearest integer, ties to even (the Python rounding mode). -/
noncomputable def roundHalfEven (x : ℝ) : ℤ :=
  if Int.fract x = 1 / 2 then (if Even ⌊x⌋ then ⌊x⌋ else ⌊x⌋ + 1)
  else ⌊x + 1 / 2⌋

/-- Python `round(x, 1)`. -/
noncomputable def roundTo1 (x : ℝ) : ℝ := (roundHalfEven (10 * x) : ℝ) / 10

/-- `calculate_distance(lat1, lon1, lat2, lon2)`: haversine great-circle
distance in meters with Earth radius 6 371 000 m, rounded to one decimal
place. -/
noncomputable def calculateDistance (lat1 lon1 lat2 lon2 : ℝ) : ℝ :=
  let R : ℝ := 6371000
  let lat1Rad := radians lat1
  let lat2Rad := radians lat2
  let deltaLat := radians (lat2 - lat1)
  let deltaLon := radians (lon2 - lon1)
  let a := Real.sin (deltaLat / 2) ^ 2 +
    Real.cos lat1Rad * Real.cos lat2Rad * Real.sin (deltaLon / 2) ^ 2
  let c := 2 * pyAtan2 (Real.sqrt a) (Real.sqrt (1 - a))
  let distance := R * c
  roundTo1 distance

/-- One row of the `stores` table. -/
structure StoreRow where
  id : ℤ
  name : String
  latitude : ℝ
  longitude : ℝ
  address : String
  openTime : String
  closeTime : String

/-- The `latitude`/`longitude` columns of a `customers` row
(`SELECT latitude, longitude FROM customers WHERE id = ?`); `none` models
SQL `NULL`. -/
structure CustomerLocRow where
  latitude : Option ℝ
  longitude : Option ℝ

/-- Python falsiness of a nullable float column: `None` and `0.0` are both
falsy (`not customer_row[latitude]`). -/
def pyFalsyFloat : Option ℝ → Prop
  | none => True
  | some x => x = 0

/-- The guard `not customer_row or not customer_row[lat] or not customer_row[lon]` of `get_nearest_store_for_customer`. -/
def missingLoc : Option CustomerLocRow → Prop
  | none => True
  | some c => pyFalsyFloat c.latitude ∨ pyFalsyFloat c.longitude

open scoped Classical in
/-- One iteration of the store-scan loop: `min_distance` starts at
`float(Inf)` (modelled by `⊤ : WithTop ℝ` when no store has been kept yet)
and a store is kept only on strictly smaller distance. -/
noncomputable def scanStep (lat lon : ℝ) (acc : Option (StoreRow × ℝ)) (store : StoreRow) :
    Option (StoreRow × ℝ) :=
  let distance := calculateDistance lat lon store.latitude store.longitude
  let minDistance : WithTop ℝ := match acc with | none => ⊤ | some p => (p.2 : WithTop ℝ)
  if (distance : WithTop ℝ) < minDistance then some (store, distance) else acc

/-- The `for store in stores:` loop of `get_nearest_store_for_customer`. -/
noncomputable def scanStores (lat lon : ℝ) (stores : List StoreRow) :
    Option (StoreRow × ℝ) :=
  stores.foldl (scanStep lat lon) none

open scoped Classical in
/-- `get_nearest_store_for_customer`, as a function of the location row of the customer (result of the `customers` query) and the `stores` table in
`SELECT` order (`LIMIT 1` returns its head).  The result `none` models the
empty dictionary `{}`; `some (s, d)` models the store dictionary with
`distance_m = d` attached. -/
noncomputable def getNearestStoreForCustomer (customer : Option CustomerLocRow)
    (stores : List StoreRow) : Option (StoreRow × ℝ) :=
  if missingLoc customer then
    match stores.head? with
    | none => none
    | some store => some (store, 50)
  else
    match customer with
    | none => none
    | some c =>
        match c.latitude, c.longitude with
        | some lat, some lon =>
            match stores with
            | [] => none
            | _ :: _ => scanStores lat lon stores
        | _, _ => none

/-! ### Retrieval (`src/rag.py`, lines 187–216)

The chromadb persistent client is an external collaborator; its state is
modelled as an association list of named collections.  The similarity search of a collection is opaque: it is a function from the (opaquely coded)
query embedding and `n_results` to the chroma result dictionary, whose
`documents` entry is a list of document-text lists, one per query.
`client.get_collection(name)` raises when no collection of that name exists;
the raising call inside `try` is modelled by the `none` result of a lookup. -/

/-- The `documents` field of a chroma query result. -/
structure ChromaQueryResult where
  documents : List (List String)

/-- A chroma collection: its search behaviour as an opaque function of the
query-embedding code and `n_results`. -/
structure ChromaCollection where
  query : ℕ → ℕ → ChromaQueryResult

/-- State of the `RAGSystem`: the named collections of the client and the
embedding model (a function from text to an opaque embedding code). -/
structure RAGEnv where
  collections : List (String × ChromaCollection)
  encode : String → ℕ

/-- `self.collection_name`. -/
def collectionName : String := "retail_knowledge"

/-- `self.client.get_collection(self.collection_name)`: raises
(`Except.error`) when the collection does not exist. -/
def getCollection (env : RAGEnv) (name : String) : Except String ChromaCollection :=
  match env.collections.find? (fun e => e.1 = name) with
  | none => .error "Collection does not exist"
  | some e => .ok e.2

/-- `RAGSystem.retrieve(query, k)`: return `[]` if `get_collection` raises;
otherwise embed the query, run the similarity search, and return the first
entry of `results["documents"]` when it is nonempty, else `[]`. -/
def ragRetrieve (env : RAGEnv) (query : String) (k : ℕ) : List String :=
  match getCollection env collectionName with
  | .error _ => []
  | .ok coll =>
      let queryEmbedding := env.encode query
      let results := coll.query queryEmbedding k
      match results.documents with
      | [] => []
      | docs :: _ => docs

/-! ### Context assembler (`src/streamlit_app.py`, lines 48–173)

`TOP_K_RAG` comes from `src/config.py`.  The effectful collaborators of
`process_message` — the two database lookups, module-level `rag_retrieve`
(whose lazy `RAGSystem` construction can itself raise), and
`call_llm_with_system` — are modelled as `Except`-valued fields of an
environment record; Python float-to-string rendering (used for
`distance_m` in the prompt) is abstracted as the `floatRepr` field. -/

/-- `TOP_K_RAG = 4` (`src/config.py`). -/
def topKRag : ℕ := 4

/-- `str.strip()`. -/
def pyStrip (s : String) : String :=
  String.mk (((s.data.dropWhile isSpacePy).reverse.dropWhile isSpacePy).reverse)

/-- The fixed system prompt of `build_prompt`. -/
def systemPromptText : String :=
  "You are a hyper-personalized retail assistant for a coffee shop chain.\n\nYour role:\n- Provide helpful, specific, and context-aware responses\n- Use customer history and preferences to personalize suggestions\n- Mention nearby stores, distances, and operating hours when relevant\n- Highlight available coupons and discounts\n- Be warm, friendly, and concise\n- If the user expresses a need (like \"I\x27m cold\"), proactively suggest relevant products\n\nGuidelines:\n- Always prioritize customer satisfaction\n- Use the provided context to give specific answers\n- Don\x27t make up information not in the context\n- Keep responses conversational and natural\n"

/-- `build_prompt(customer_ctx, store_ctx, rag_docs, user_message)`:
the section lists mirror the `user_prompt_parts.append(...)` calls; a `none`
context (empty dictionary, falsy) skips its section.  `fmt` renders the
`distance_m` float. -/
def buildPrompt (fmt : ℝ → String) (customerCtx : Option CustomerCtx)
    (storeCtx : Option (StoreRow × ℝ)) (ragDocs : List String)
    (userMessage : String) : String × String :=
  let customerParts : List String :=
    match customerCtx with
    | none => []
    | some ctx =>
        ["=== CUSTOMER CONTEXT ===",
         "Name: " ++ ctx.name,
         "Loyalty Level: " ++ ctx.loyaltyLevel,
         "Preferred Drink: " ++ ctx.preferredDrink]
        ++ (if ctx.recentOrders.isEmpty then []
            else ("\nRecent Orders (" ++ toString ctx.recentOrders.length ++ "):") ::
              (ctx.recentOrders.take 3).map
                (fun o => "  - " ++ o.itemName ++ " (" ++ o.size ++ ") - " ++ o.status))
        ++ (if ctx.activeCoupons.isEmpty then []
            else ("\nActive Coupons (" ++ toString ctx.activeCoupons.length ++ "):") ::
              ctx.activeCoupons.map
                (fun c => "  - " ++ c.description ++ " (valid until " ++ c.validUntil ++ ")"))
        ++ [""]
  let storeParts : List String :=
    match storeCtx with
    | none => []
    | some (store, distance) =>
        ["=== NEARBY STORE ===",
         "Name: " ++ store.name,
         "Distance: " ++ fmt distance ++ "m away",
         "Address: " ++ store.address,
         "Hours: " ++ store.openTime ++ " - " ++ store.closeTime,
         ""]
  let ragParts : List String :=
    if ragDocs.isEmpty then []
    else "=== RELEVANT INFORMATION ===" ::
      (ragDocs.enum.map
        (fun e => ["[Document " ++ toString (e.1 + 1) ++ "]", pyStrip e.2, ""])).flatten
  let messageParts : List String := ["=== CUSTOMER MESSAGE ===", userMessage]
  (systemPromptText,
   String.intercalate "\n" (customerParts ++ storeParts ++ ragParts ++ messageParts))

/-- The effectful collaborators of `process_message`; `Except.error e` models
a raised exception with text `str(e)`. -/
structure AppEnv where
  getCustomerContext : ℤ → Except String (Option CustomerCtx)
  getNearestStore : ℤ → Except String (Option (StoreRow × ℝ))
  ragRetrieveStep : String → ℕ → Except String (List String)
  callLlm : String → String → Except String String
  floatRepr : ℝ → String

/-- The body of the `try:` block of `process_message`: context lookups,
masking, table merge, retrieval (with its own inner `try` that degrades to
`[]`), prompt building, LLM call, and unmasking. -/
def processAttempt (env : AppEnv) (userMessage : String) (customerId : ℤ) :
    Except String String := do
  let customerCtx ← env.getCustomerContext customerId
  let storeCtx ← env.getNearestStore customerId
  let (maskedMessage, piiMapping) := maskText userMessage
  let (maskedCustomerCtx, customerPiiMapping) := maskCustomerContext customerCtx
  let piiMapping := pyDictUpdate piiMapping customerPiiMapping
  let ragDocs : List String :=
    match env.ragRetrieveStep maskedMessage topKRag with
    | .ok docs => docs
    | .error _ => []
  let (systemPrompt, userPrompt) :=
    buildPrompt env.floatRepr maskedCustomerCtx storeCtx ragDocs maskedMessage
  let responseMasked ← env.callLlm systemPrompt userPrompt
  pure (unmaskText responseMasked piiMapping)

/-- The apology text produced by the `except` handler for an exception
rendered as `e`. -/
def apologyText (e : String) : String :=
  "I apologize, but I encountered an error: " ++ e ++
    "\n\nPlease make sure your GROQ_API_KEY is set in the .env file."

/-- `process_message(user_message, customer_id)`: the `try` body, with every
raised exception converted by the `except` handler into the apology string. -/
def processMessage (env : AppEnv) (userMessage : String) (customerId : ℤ) : String :=
  match processAttempt env userMessage customerId with
  | .ok response => response
  | .error e => apologyText e

/-- Does `sub` occur as a contiguous substring of `s`? -/
def occursIn : List Char → List Char → Bool
  | sub, [] => leadsWith sub []
  | sub, c :: cs => leadsWith sub (c :: cs) || occursIn sub cs

/-- The concrete customer record used to exhibit the placeholder collision of
`process_message`: its phone differs from the phone in the user message, yet
both mask to `[PHONE_1]`. -/
def c4CustomerRecord : CustomerCtx :=
  { id := 2, name := "Dana", phone := "+1-555-0199", email := "bob@example.com",
    address := "200 Broadway", latitude := none, longitude := none,
    preferredDrink := "Latte", loyaltyLevel := "Silver",
    recentOrders := [], activeCoupons := [] }

/-! ## Claim theorems -/

/-- C2: `mask_text` on `"Call me at +1-555-0101 or email alice@example.com"`
returns the masked string `"Call me at [PHONE_1] or email [EMAIL_1]"` with
table `[PHONE_1] ↦ "+1-555-0101"`, `[EMAIL_1] ↦ "alice@example.com"`, and
`unmask_text` on the synthetic model response that echoes `[PHONE_1]`, with
that table, returns the response with the phone `+1-555-0101` restored. -/
theorem c2_end_to_end_scenario :
    maskText "Call me at +1-555-0101 or email alice@example.com" =
      ("Call me at [PHONE_1] or email [EMAIL_1]",
       [("[PHONE_1]", "+1-555-0101"), ("[EMAIL_1]", "alice@example.com")]) ∧
    unmaskText "Sure, we\x27ll contact you at [PHONE_1]."
      (maskText "Call me at +1-555-0101 or email alice@example.com").2 =
      "Sure, we\x27ll contact you at +1-555-0101." := by
  decide

/-- C4: a user message and a customer record with different phone numbers
both produce the key `[PHONE_1]`, the `dict.update` merge of
`process_message` maps `[PHONE_1]` to the phone of the record, so unmasking a
response that echoes `[PHONE_1]` yields the phone of the record, and unmasking
the masked message no longer restores the original message. -/
theorem c4_merged_table_collision :
    (maskText "Call me at +1-555-0101").2 = [("[PHONE_1]", "+1-555-0101")] ∧
    (maskCustomerContext (some c4CustomerRecord)).2 =
      [("[PHONE_1]", "+1-555-0199"), ("[EMAIL_1]", "bob@example.com")] ∧
    pyDictUpdate (maskText "Call me at +1-555-0101").2
        (maskCustomerContext (some c4CustomerRecord)).2 =
      [("[PHONE_1]", "+1-555-0199"), ("[EMAIL_1]", "bob@example.com")] ∧
    unmaskText "Sure, we will contact you at [PHONE_1]."
        (pyDictUpdate (maskText "Call me at +1-555-0101").2
          (maskCustomerContext (some c4CustomerRecord)).2) =
      "Sure, we will contact you at +1-555-0199." ∧
    unmaskText (maskText "Call me at +1-555-0101").1
        (pyDictUpdate (maskText "Call me at +1-555-0101").2
          (maskCustomerContext (some c4CustomerRecord)).2) =
      "Call me at +1-555-0199" ∧
    "Call me at +1-555-0199" ≠ "Call me at +1-555-0101" := by
  decide

/-- C5 (failing input): the input `"[PHONE_1234567890] 1234567890"` contains
the valid placeholder token `[PHONE_1234567890]`, yet `mask_text` destroys
that token: the bare ten-digit number matches `\b\d{10}\b` and
`str.replace(phone, placeholder, 1)` rewrites the first substring occurrence
of `1234567890`, which lies inside the pre-existing token, producing
`"[PHONE_[PHONE_1]] 1234567890"`. -/
theorem c5_preexisting_placeholder_destroyed :
    maskText "[PHONE_1234567890] 1234567890" =
      ("[PHONE_[PHONE_1]] 1234567890", [("[PHONE_1]", "1234567890")]) ∧
    occursIn "[PHONE_1234567890]".data "[PHONE_1234567890] 1234567890".data = true ∧
    occursIn "[PHONE_1234567890]".data
      (maskText "[PHONE_1234567890] 1234567890").1.data = false := by
  decide

/-- C3 (counterexample): on `"a@b.co a@b.co"` the single distinct literal
`"a@b.co"` is mapped by two different placeholders, `[EMAIL_1]` and
`[EMAIL_2]`, so it is false that each distinct literal PII value maps to
exactly one placeholder in the returned table. -/
theorem c3_counterexample :
    (maskText "a@b.co a@b.co").2 =
      [("[EMAIL_1]", "a@b.co"), ("[EMAIL_2]", "a@b.co")] ∧
    ¬ (∀ p q v : String, (p, v) ∈ (maskText "a@b.co a@b.co").2 →
        (q, v) ∈ (maskText "a@b.co a@b.co").2 → p = q) := by
  refine ⟨by decide, fun h => ?_⟩
  have h1 : (("[EMAIL_1]" : String), ("a@b.co" : String)) ∈ (maskText "a@b.co a@b.co").2 := by
    decide
  have h2 : (("[EMAIL_2]" : String), ("a@b.co" : String)) ∈ (maskText "a@b.co a@b.co").2 := by
    decide
  exact absurd (h "[EMAIL_1]" "[EMAIL_2]" "a@b.co" h1 h2) (by decide)

/-! ### Dictionary invariants for the amended uniqueness claim -/

section DictLemmas

variable {α β : Type} [DecidableEq α]

theorem map_fst_pyDictSet (d : List (α × β)) (k : α) (v : β) :
    (pyDictSet d k v).map Prod.fst =
      if d.any (fun e => e.1 = k) then d.map Prod.fst else d.map Prod.fst ++ [k] := by
  by_cases h : d.any (fun e => e.1 = k)
  · simp only [pyDictSet, if_pos h, List.map_map]
    refine List.map_congr_left (fun e _ => ?_)
    by_cases he : e.1 = k <;> simp [he]
  · simp [pyDictSet, h]

theorem keys_nodup_pyDictSet (d : List (α × β)) (k : α) (v : β)
    (h : (d.map Prod.fst).Nodup) : ((pyDictSet d k v).map Prod.fst).Nodup := by
  rw [map_fst_pyDictSet]
  by_cases hk : d.any (fun e => e.1 = k)
  · simpa [hk] using h
  · have hnot : k ∉ d.map Prod.fst := by
      intro hmem
      rcases List.mem_map.1 hmem with ⟨e, he, hek⟩
      exact hk (List.any_eq_true.2 ⟨e, he, by simp [hek]⟩)
    simp [hk, List.nodup_append, h, hnot]

theorem mem_values_overwrite {d : List (α × β)} {k : α} {v x : β}
    (hx : x ∈ (d.map (fun e => if e.1 = k then (k, v) else e)).map Prod.snd) :
    x ∈ d.map Prod.snd ∨ x = v := by
  induction d with
  | nil => simp at hx
  | cons e rest ih =>
      simp only [List.map_cons, List.mem_cons] at hx
      rcases hx with hx | hx
      · by_cases hek : e.1 = k
        · right
          rw [hx]
          simp [hek]
        · left
          rw [hx]
          simp [hek]
      · rcases ih hx with h | h
        · exact Or.inl (List.mem_cons_of_mem _ h)
        · exact Or.inr h

theorem values_nodup_overwrite (d : List (α × β)) (k : α) (v : β)
    (hk : (d.map Prod.fst).Nodup) (hv : (d.map Prod.snd).Nodup)
    (hnew : v ∉ d.map Prod.snd) :
    ((d.map (fun e => if e.1 = k then (k, v) else e)).map Prod.snd).Nodup := by
  induction d with
  | nil => simp
  | cons e rest ih =>
      rw [List.map_cons, List.nodup_cons] at hk hv
      rw [List.map_cons, List.mem_cons] at hnew
      push_neg at hnew
      by_cases hek : e.1 = k
      · have hrestId : rest.map (fun e => if e.1 = k then (k, v) else e) = rest := by
          refine (List.map_congr_left (fun e' he' => ?_)).trans (List.map_id _)
          have hne : e'.1 ≠ k := by
            intro hc
            exact hk.1 (hc.trans hek.symm ▸ List.mem_map_of_mem Prod.fst he')
          simp [hne]
        rw [List.map_cons, hrestId, if_pos hek, List.map_cons, List.nodup_cons]
        exact ⟨hnew.2, hv.2⟩
      · rw [List.map_cons, if_neg hek, List.map_cons, List.nodup_cons]
        refine ⟨?_, ih hk.2 hv.2 hnew.2⟩
        intro hmem
        rcases mem_values_overwrite hmem with hold | hvv
        · exact hv.1 hold
        · exact hnew.1 hvv.symm

theorem values_nodup_pyDictSet (d : List (α × β)) (k : α) (v : β)
    (hk : (d.map Prod.fst).Nodup) (hv : (d.map Prod.snd).Nodup)
    (hnew : v ∉ d.map Prod.snd) : ((pyDictSet d k v).map Prod.snd).Nodup := by
  by_cases h : d.any (fun e => e.1 = k)
  · simp only [pyDictSet, if_pos h]
    exact values_nodup_overwrite d k v hk hv hnew
  · simp only [pyDictSet, if_neg h, List.map_append]
    simp [List.nodup_append, hv, hnew]

theorem filter_overwrite (d : List (α × β)) (k : α) (v : β)
    (p : α → Bool) (hp : p k = false) :
    (d.map (fun e => if e.1 = k then (k, v) else e)).filter (fun e => p e.1) =
      d.filter (fun e => p e.1) := by
  induction d with
  | nil => simp
  | cons e rest ih =>
      by_cases hek : e.1 = k
      · rw [List.map_cons, if_pos hek, List.filter_cons, List.filter_cons]
        simp only [hek, hp]
        simpa using ih
      · rw [List.map_cons, if_neg hek, List.filter_cons, List.filter_cons]
        by_cases hpe : p e.1 <;> simp [hpe, ih]

theorem filter_pyDictSet_of_pred_false (d : List (α × β)) (k : α) (v : β)
    (p : α → Bool) (hp : p k = false) :
    (pyDictSet d k v).filter (fun e => p e.1) = d.filter (fun e => p e.1) := by
  by_cases h : d.any (fun e => e.1 = k)
  · simp only [pyDictSet, if_pos h]
    exact filter_overwrite d k v p hp
  · simp [pyDictSet, h, List.filter_append, hp]

end DictLemmas

/-- The table invariant maintained through the phone phase of `mask_text`: keys
and values are both duplicate-free. -/
def TableInv (d : List (List Char × List Char)) : Prop :=
  (d.map Prod.fst).Nodup ∧ (d.map Prod.snd).Nodup

theorem tableInv_phoneStep (st : MaskState) (phone : List Char)
    (h : TableInv st.table) : TableInv (phoneStep st phone).table := by
  unfold phoneStep
  by_cases hg : (phone.any (fun c => !isSpacePy c) &&
      !st.table.any (fun e => e.2 = phone)) = true
  · have hnew : phone ∉ st.table.map Prod.snd := by
      rw [Bool.and_eq_true] at hg
      have hany := hg.2
      simp only [Bool.not_eq_true'] at hany
      intro hmem
      rcases List.mem_map.1 hmem with ⟨e, he, hev⟩
      have : st.table.any (fun e => e.2 = phone) = true :=
        List.any_eq_true.2 ⟨e, he, by simp [hev]⟩
      rw [this] at hany
      exact Bool.true_eq_false.mp hany
    simp only [if_pos hg]
    exact ⟨keys_nodup_pyDictSet _ _ _ h.1, values_nodup_pyDictSet _ _ _ h.1 h.2 hnew⟩
  · simpa [if_neg hg] using h

theorem tableInv_phonePass (st : MaskState) (pat : List RItem)
    (h : TableInv st.table) : TableInv (phonePass st pat).table := by
  unfold phonePass
  generalize findAll pat st.text = phones
  induction phones generalizing st with
  | nil => exact h
  | cons phone rest ih => exact ih _ (tableInv_phoneStep st phone h)

theorem tableInv_phonePhase (text : List Char) :
    TableInv (phonePatterns.foldl phonePass ⟨text, [], 1⟩).table := by
  have h0 : TableInv (MaskState.mk text [] 1).table := by constructor <;> simp
  generalize phonePatterns = pats
  generalize (MaskState.mk text [] 1) = st at h0 ⊢
  induction pats generalizing st with
  | nil => exact h0
  | cons pat rest ih => exact ih _ (tableInv_phonePass st pat h0)

theorem leadsWith_phone_email (j : Nat) :
    leadsWith "[PHONE_".data (emailPlaceholder j) = false := rfl

/-- The e-mail phase never touches phone-placeholder entries of the table. -/
theorem phone_filter_email_fold (emails : List (List Char))
    (acc : List Char × List (List Char × List Char) × Nat) :
    ((emails.foldl emailStep acc).2.1.filter
        (fun e => leadsWith "[PHONE_".data e.1)) =
      acc.2.1.filter (fun e => leadsWith "[PHONE_".data e.1) := by
  induction emails generalizing acc with
  | nil => rfl
  | cons email rest ih =>
      rw [List.foldl_cons, ih]
      obtain ⟨text, table, i⟩ := acc
      exact filter_pyDictSet_of_pred_false _ _ _ _ (leadsWith_phone_email i)

/-- C3 (amended): within one `mask_text` call each distinct detected phone
literal maps to exactly one `[PHONE_n]` placeholder — the phone entries of
the returned table have pairwise-distinct values — but only the first
occurrence of the literal is replaced (later occurrences of a repeated phone
stay unmasked), and each repeated e-mail occurrence receives a fresh
`[EMAIL_n]` placeholder of its own. -/
theorem c3_amended :
    (∀ t : List Char,
      (((maskTextL t).2.filter (fun e => leadsWith "[PHONE_".data e.1)).map
          Prod.snd).Nodup) ∧
    maskText "+1-555-0101 and +1-555-0101" =
      ("[PHONE_1] and +1-555-0101", [("[PHONE_1]", "+1-555-0101")]) ∧
    (maskText "a@b.co a@b.co").2 =
      [("[EMAIL_1]", "a@b.co"), ("[EMAIL_2]", "a@b.co")] := by
  refine ⟨fun t => ?_, by decide, by decide⟩
  have hInv := tableInv_phonePhase t
  simp only [maskTextL]
  rw [phone_filter_email_fold]
  exact hInv.2.sublist ((List.filter_sublist _).map Prod.snd)

/-! ### Geo resolver lemmas -/

theorem le_roundHalfEven (x : ℝ) : x - 1 ≤ (roundHalfEven x : ℝ) := by
  unfold roundHalfEven
  split
  · split
    · have := Int.sub_one_lt_floor x
      linarith
    · push_cast
      have := Int.sub_one_lt_floor x
      linarith
  · have := Int.sub_one_lt_floor (x + 1 / 2)
    linarith

theorem roundHalfEven_zero : roundHalfEven 0 = 0 := by
  unfold roundHalfEven
  rw [if_neg]
  · rw [zero_add, Int.floor_eq_zero_iff]
    constructor <;> norm_num
  · rw [Int.fract_zero]
    norm_num

theorem roundTo1_zero : roundTo1 0 = 0 := by
  unfold roundTo1
  rw [mul_zero, roundHalfEven_zero]
  norm_num

theorem radians_zero : radians 0 = 0 := by
  unfold radians
  ring

theorem pyAtan2_zero_one : pyAtan2 0 1 = 0 := by
  unfold pyAtan2
  rw [if_pos zero_lt_one, zero_div, Real.arctan_zero]

theorem pyAtan2_one_zero : pyAtan2 1 0 = Real.pi / 2 := by
  unfold pyAtan2
  rw [if_neg (lt_irrefl 0), if_neg (lt_irrefl 0), if_pos zero_lt_one]

/-- The distance from a point to itself (at the origin) is zero. -/
theorem calcDist_same_zero : calculateDistance 0 0 0 0 = 0 := by
  simp only [calculateDistance, sub_zero, radians_zero, zero_div, Real.sin_zero,
    Real.cos_zero, one_mul, mul_zero, zero_add]
  norm_num [pyAtan2_zero_one, roundTo1_zero]

/-- The concrete store pinned at latitude 180: its computed distance from the
origin `(0, 0)` is `roundTo1 (6371000 * π)`, which is at least one meter. -/
theorem one_le_calcDist_antipodal : 1 ≤ calculateDistance 0 0 180 0 := by
  have hpi := Real.pi_gt_three
  have h180 : radians (180 - 0) = Real.pi := by
    unfold radians
    ring
  have h180' : radians 180 = Real.pi := by
    unfold radians
    ring
  have h00 : radians (0 - 0) = 0 := by
    unfold radians
    ring
  simp only [calculateDistance, h180, h180', h00, radians_zero, zero_div,
    Real.sin_zero, Real.cos_zero, Real.cos_pi, Real.sin_pi_div_two, one_mul, mul_zero,
    zero_add]
  have ha : (1 : ℝ) ^ 2 + -1 * 0 ^ 2 = 1 := by norm_num
  rw [ha, Real.sqrt_one, sub_self, Real.sqrt_zero, pyAtan2_one_zero]
  have hrhe := le_roundHalfEven (10 * (6371000 * (2 * (Real.pi / 2))))
  unfold roundTo1
  linarith

def c6StoreFar : StoreRow :=
  { id := 1, name := "BeanHaven Far", latitude := 180, longitude := 0,
    address := "far away", openTime := "06:00", closeTime := "21:00" }

def c6StoreHere : StoreRow :=
  { id := 2, name := "BeanHaven Here", latitude := 0, longitude := 0,
    address := "right here", openTime := "06:00", closeTime := "21:00" }

/-- The customer row with numeric coordinates `(0.0, 0.0)`. -/
def c6Customer : CustomerLocRow := { latitude := some 0, longitude := some 0 }

/-- C6 (failing input): for the customer at numeric coordinates `(0.0, 0.0)`
and a store list whose first store is at latitude 180 while its second store
is at the origin itself, `get_nearest_store_for_customer` treats the `0.0`
coordinates as missing (Python falsiness of `0.0`) and returns the first
store with the sentinel distance 50 — even though the second computed distance of the second store is `0` and the computed distance of the first store is at least one
meter, so the returned facility is not the minimal-distance one. -/
theorem c6_zero_coordinate_fallback_bug :
    getNearestStoreForCustomer (some c6Customer) [c6StoreFar, c6StoreHere] =
      some (c6StoreFar, 50) ∧
    calculateDistance 0 0 c6StoreHere.latitude c6StoreHere.longitude = 0 ∧
    1 ≤ calculateDistance 0 0 c6StoreFar.latitude c6StoreFar.longitude := by
  refine ⟨?_, calcDist_same_zero, one_le_calcDist_antipodal⟩
  have hmiss : missingLoc (some c6Customer) := Or.inl rfl
  unfold getNearestStoreForCustomer
  rw [if_pos hmiss]
  rfl

/-- C7: `calculate_distance` is symmetric in its two coordinate pairs, and
the distance from `(0, 0)` to `(0, 0)` is zero. -/
theorem c7_distance_symmetric_and_zero_at_origin :
    (∀ lat1 lon1 lat2 lon2 : ℝ,
      calculateDistance lat1 lon1 lat2 lon2 = calculateDistance lat2 lon2 lat1 lon1) ∧
    calculateDistance 0 0 0 0 = 0 := by
  refine ⟨fun lat1 lon1 lat2 lon2 => ?_, calcDist_same_zero⟩
  have hlat : radians (lat2 - lat1) / 2 = -(radians (lat1 - lat2) / 2) := by
    unfold radians
    ring
  have hlon : radians (lon2 - lon1) / 2 = -(radians (lon1 - lon2) / 2) := by
    unfold radians
    ring
  simp only [calculateDistance, hlat, hlon, Real.sin_neg, neg_sq]
  rw [mul_comm (Real.cos (radians lat1)) (Real.cos (radians lat2))]

/-- A concrete store row used by witnesses. -/
def sampleStore : StoreRow :=
  { id := 1, name := "BeanHaven Coffee - Downtown", latitude := 40.7589,
    longitude := -73.9851, address := "123 Main St, New York, NY",
    openTime := "06:00", closeTime := "21:00" }

/-- C8: when the customer row is absent or its latitude or longitude is SQL
`NULL`, `get_nearest_store_for_customer` does not fail: it returns the first
store of the `stores` table with the fixed sentinel distance 50 attached as
`distance_m`. -/
theorem c8_absent_origin_returns_default (customer : Option CustomerLocRow)
    (stores : List StoreRow) (store : StoreRow)
    (hnull : customer = none ∨
      ∃ c, customer = some c ∧ (c.latitude = none ∨ c.longitude = none))
    (hhead : stores.head? = some store) :
    getNearestStoreForCustomer customer stores = some (store, 50) := by
  have hmiss : missingLoc customer := by
    rcases hnull with rfl | ⟨c, rfl, hc⟩
    · trivial
    · rcases hc with hlat | hlon
      · exact Or.inl (by rw [hlat]; trivial)
      · exact Or.inr (by rw [hlon]; trivial)
  unfold getNearestStoreForCustomer
  rw [if_pos hmiss, hhead]

/-- Witness for C8 at a concrete absent customer row and one-store table. -/
theorem c8_absent_origin_returns_default_witness :
    getNearestStoreForCustomer none [sampleStore] = some (sampleStore, 50) :=
  c8_absent_origin_returns_default none [sampleStore] sampleStore (Or.inl rfl) rfl

/-- C9: if the named collection does not exist in the client (index never
built, or build failed), `RAGSystem.retrieve` returns the empty list for
every query and every `k`, rather than propagating the `get_collection`
exception. -/
theorem c9_missing_collection_returns_empty (env : RAGEnv) (query : String) (k : ℕ)
    (h : env.collections.find? (fun e => e.1 = collectionName) = none) :
    ragRetrieve env query k = [] := by
  unfold ragRetrieve getCollection
  rw [h]

/-- Witness for C9: a client with no collections at all. -/
theorem c9_missing_collection_returns_empty_witness :
    ragRetrieve ⟨[], fun _ => 0⟩ "What are your store hours?" 4 = [] :=
  c9_missing_collection_returns_empty ⟨[], fun _ => 0⟩ "What are your store hours?" 4 rfl

/-- C10: whenever the `try` body of `process_message` raises — any of the
effectful steps fails with an exception rendered as `e` — `process_message`
returns the single apology string naming that cause, rather than
propagating the exception.  (`processMessage` is a total function in this
embedding, so no other outcome is possible.) -/
theorem c10_exception_becomes_apology (env : AppEnv) (userMessage : String)
    (customerId : ℤ) (e : String)
    (h : processAttempt env userMessage customerId = .error e) :
    processMessage env userMessage customerId =
      "I apologize, but I encountered an error: " ++ e ++
        "\n\nPlease make sure your GROQ_API_KEY is set in the .env file." := by
  unfold processMessage
  rw [h]
  rfl

/-- An environment whose customer-record lookup raises. -/
def failingEnv : AppEnv :=
  { getCustomerContext := fun _ => .error "database is locked",
    getNearestStore := fun _ => .ok none,
    ragRetrieveStep := fun _ _ => .ok [],
    callLlm := fun _ _ => .ok "Hello!",
    floatRepr := fun _ => "50" }

/-- Witness for C10: with a failing record lookup, `process_message` returns
the apology string verbatim. -/
theorem c10_exception_becomes_apology_witness :
    processMessage failingEnv "Where is my order?" 1 =
      "I apologize, but I encountered an error: database is locked" ++
        "\n\nPlease make sure your GROQ_API_KEY is set in the .env file." :=
  c10_exception_becomes_apology failingEnv "Where is my order?" 1 "database is locked" rfl

/-! ### Supporting evidence

The embedded engine reproduces the demonstration inputs of the
`if __name__ == "__main__":` block of `src/masking.py`, and the round trip
holds on each of them. -/

theorem maskText_demo_multiple_formats :
    maskText "My number is (555) 123-4567 and backup is 555.987.6543" =
      ("My number is [PHONE_1] and backup is [PHONE_2]",
       [("[PHONE_1]", "(555) 123-4567"), ("[PHONE_2]", "555.987.6543")]) ∧
    unmaskText "My number is [PHONE_1] and backup is [PHONE_2]"
        [("[PHONE_1]", "(555) 123-4567"), ("[PHONE_2]", "555.987.6543")] =
      "My number is (555) 123-4567 and backup is 555.987.6543" := by
  decide

theorem maskText_demo_email_and_bare_digits :
    maskText "Contact: alice@company.com or phone 5551234567" =
      ("Contact: [EMAIL_1] or phone [PHONE_1]",
       [("[PHONE_1]", "5551234567"), ("[EMAIL_1]", "alice@company.com")]) ∧
    unmaskText "Contact: [EMAIL_1] or phone [PHONE_1]"
        [("[PHONE_1]", "5551234567"), ("[EMAIL_1]", "alice@company.com")] =
      "Contact: alice@company.com or phone 5551234567" := by
  decide

theorem maskText_roundTrip_end_to_end_input :
    unmaskText (maskText "Call me at +1-555-0101 or email alice@example.com").1
        (maskText "Call me at +1-555-0101 or email alice@example.com").2 =
      "Call me at +1-555-0101 or email alice@example.com" := by
  decide

/-- The store-scan loop itself is a correct first-wins minimum selection:
on a nonempty store list it returns some store of the list together with its
computed distance, that distance is minimal over the list, and every store
strictly before the returned one has a strictly larger distance (the strict
`<` comparison never replaces the incumbent on a tie).  This isolates the
`C6` defect to the falsy-coordinate guard: the selection logic that the
claim describes is correct whenever it is reached. -/
theorem scanStores_first_min (lat lon : ℝ) (stores : List StoreRow)
    (hne : stores ≠ []) :
    ∃ p1 s p2, stores = p1 ++ s :: p2 ∧
      scanStores lat lon stores =
        some (s, calculateDistance lat lon s.latitude s.longitude) ∧
      (∀ s' ∈ stores, calculateDistance lat lon s.latitude s.longitude ≤
        calculateDistance lat lon s'.latitude s'.longitude) ∧
      (∀ s' ∈ p1, calculateDistance lat lon s.latitude s.longitude <
        calculateDistance lat lon s'.latitude s'.longitude) := by
  classical
  set dist := fun s : StoreRow => calculateDistance lat lon s.latitude s.longitude with hdist
  have main : ∀ (rest processed : List StoreRow) (p1 : List StoreRow) (s : StoreRow)
      (p2 : List StoreRow), processed = p1 ++ s :: p2 →
      (∀ s' ∈ processed, dist s ≤ dist s') →
      (∀ s' ∈ p1, dist s < dist s') →
      ∃ q1 t q2, processed ++ rest = q1 ++ t :: q2 ∧
        rest.foldl (scanStep lat lon) (some (s, dist s)) = some (t, dist t) ∧
        (∀ s' ∈ processed ++ rest, dist t ≤ dist s') ∧
        (∀ s' ∈ q1, dist t < dist s') := by
    intro rest
    induction rest with
    | nil =>
        intro processed p1 s p2 hproc hmin hpre
        refine ⟨p1, s, p2, by simpa using hproc, rfl, by simpa using hmin, hpre⟩
    | cons t rest ih =>
        intro processed p1 s p2 hproc hmin hpre
        by_cases hlt : dist t < dist s
        · have hstep : scanStep lat lon (some (s, dist s)) t = some (t, dist t) := by
            simp only [scanStep]
            split
            · rfl
            · rename_i hc
              exact absurd
                (show ((dist t : ℝ) : WithTop ℝ) < ((dist s : ℝ) : WithTop ℝ) by
                  exact_mod_cast hlt) hc
          have hmin' : ∀ s' ∈ processed ++ [t], dist t ≤ dist s' := by
            intro s' hs'
            rcases List.mem_append.1 hs' with h | h
            · exact le_of_lt (lt_of_lt_of_le hlt (hmin s' h))
            · rcases List.mem_singleton.1 h with rfl
              exact le_refl _
          have hpre' : ∀ s' ∈ processed, dist t < dist s' := fun s' h =>
            lt_of_lt_of_le hlt (hmin s' h)
          have := ih (processed ++ [t]) processed t [] (by simp) hmin' hpre'
          rcases this with ⟨q1, u, q2, hdecomp, hfold, humin, hupre⟩
          refine ⟨q1, u, q2, by simpa [List.append_assoc] using hdecomp, ?_, ?_, hupre⟩
          · rw [List.foldl_cons, hstep]
            exact hfold
          · intro s' hs'
            apply humin
            simpa [List.append_assoc] using hs'
        · have hstep : scanStep lat lon (some (s, dist s)) t = some (s, dist s) := by
            simp only [scanStep]
            split
            · rename_i hc
              have h2 : ((dist t : ℝ) : WithTop ℝ) < ((dist s : ℝ) : WithTop ℝ) := hc
              exact absurd (by exact_mod_cast h2) hlt
            · rfl
          have hmin' : ∀ s' ∈ processed ++ [t], dist s ≤ dist s' := by
            intro s' hs'
            rcases List.mem_append.1 hs' with h | h
            · exact hmin s' h
            · rcases List.mem_singleton.1 h with rfl
              exact le_of_not_lt hlt
          have := ih (processed ++ [t]) p1 s (p2 ++ [t])
            (by rw [hproc]; simp) hmin' hpre
          rcases this with ⟨q1, u, q2, hdecomp, hfold, humin, hupre⟩
          refine ⟨q1, u, q2, by simpa [List.append_assoc] using hdecomp, ?_, ?_, hupre⟩
          · rw [List.foldl_cons, hstep]
            exact hfold
          · intro s' hs'
            apply humin
            simpa [List.append_assoc] using hs'
  obtain ⟨t, rest, rfl⟩ := List.exists_cons_of_ne_nil hne
  have hstep0 : scanStep lat lon none t = some (t, dist t) := by
    simp only [scanStep]
    split
    · rfl
    · rename_i hc
      exact absurd (show ((dist t : ℝ) : WithTop ℝ) < ⊤ from WithTop.coe_lt_top _) hc
  have := main rest [t] [] t [] rfl (by simp) (by simp)
  rcases this with ⟨q1, u, q2, hdecomp, hfold, humin, hupre⟩
  refine ⟨q1, u, q2, by simpa using hdecomp, ?_, by simpa using humin, hupre⟩
  unfold scanStores
  rw [List.foldl_cons, hstep0]
  exact hfold

end Retail
